import Mathlib

/-!
Shallow embedding of `src/packages/jupyterlab-lsp/src/adapters/adapter.ts`
(the `WidgetAdapter` class) together with proofs about it.

The adapter is modelled as an explicit state record plus one Lean function per
method.  Each method returns the successor state, the list of externally
observable actions it performed (protocol notifications, disposals, signal
(dis)connections, log lines), and an optional JavaScript runtime error:
a `some` error models an exception/rejection escaping the method, and the
state returned with it reflects the mutations performed before the throw,
exactly as in JavaScript.

Object identity (JS `===`/`!==`, `new`) is modelled by a `Nat` allocation tag
(`obj_id` on documents, `conn_id` on connections, the numeric id of an
`EditorAdapter` bundle); fresh allocations draw from the `next_id` counter of
the adapter state.
-/

namespace AdapterModel

/-- JavaScript runtime failures the modelled methods can surface:
a thrown `TypeError` (property access on `null`/`undefined`) or a rejected
promise propagating out of an `async` chain. -/
inductive JsError where
  | typeError
  | rejection
deriving DecidableEq

/-- The `document_info` payload attached to protocol notifications
(`VirtualDocument.document_info` in the source); identified here by the
document's object identity and its `id_path`. -/
structure DocumentInfo where
  obj_id : Nat
  id_path : String
deriving DecidableEq

/-- A `VirtualDocument`: object identity, its stable `id_path`, and its
current textual `value`. -/
structure VirtualDocument where
  obj_id : Nat
  id_path : String
  value : String
deriving DecidableEq

def VirtualDocument.document_info (d : VirtualDocument) : DocumentInfo :=
  ⟨d.obj_id, d.id_path⟩

/-- An `LSPConnection`: object identity and its readiness flag. -/
structure LSPConnection where
  conn_id : Nat
  isReady : Bool
deriving DecidableEq

/-- The `IVirtualEditor`, reduced to the one field the adapter reads and
writes: its current `virtual_document`. -/
structure VirtualEditor where
  virtual_document : VirtualDocument
deriving DecidableEq

/-- The `DocumentConnectionManager`, reduced to its `connections` registry:
a map from `id_path` to `LSPConnection` (`Map` iteration order = insertion
order, modelled by the list order). -/
structure ConnectionManager where
  connections : List (String × LSPConnection)
deriving DecidableEq

/-- Externally observable actions performed by the adapter methods. -/
inductive Action where
  /-- Models `EditorAdapter.dispose()` on the feature-integration bundle with the
  given allocation id. -/
  | disposeEditorAdapter (ea : Nat)
  /-- the batch of `Signal.disconnect` calls in `dispose`
  (saveState, closed, disposed, contentChanged). -/
  | disconnectAdapterSignals
  /-- Models `connection_manager.disconnect_document_signals(doc)`. -/
  | disconnectDocumentSignals (doc : Nat)
  /-- Models `virtual_editor.dispose()`. -/
  | disposeVirtualEditor
  /-- Models `connection_manager.unregister_document(doc)`. -/
  | unregisterDocument (doc : Nat)
  /-- Models `connection.sendSaved(info)` on the connection with the given id. -/
  | sendSaved (conn : Nat) (info : DocumentInfo)
  /-- Models `connection.sendFullTextChange(text, info)`. -/
  | sendFullTextChange (conn : Nat) (text : String) (info : DocumentInfo)
  /-- Models `connection.sendOpenWhenReady(info)` (the LSP `didOpen`, queued until
  the connection is ready). -/
  | sendOpenWhenReady (conn : Nat) (info : DocumentInfo)
  /-- Models `update_manager.with_update_lock(async () => adapter.updateAfterChange())`:
  the feature-integration refresh run under the update lock. -/
  | refreshUnderLock (ea : Nat)
  /-- Models `update_manager.update_documents(...)`: recomputation of the virtual
  document tree is started. -/
  | updateDocuments
  /-- the `changed` / `foreign_document_opened` signal connections made at
  the top of `connect_document`. -/
  | connectDocumentSignals (doc : Nat)
  /-- Models `virtual_editor.virtual_document = doc` in `reload_connection`. -/
  | setEditorDocument (doc : Nat)
  /-- Models `adapterConnected.emit(data)`. -/
  | emitAdapterConnected
  /-- Models `console.warn`. -/
  | logWarn (msg : String)
  /-- Models `console.log`. -/
  | logInfo (msg : String)
deriving DecidableEq

/-- The mutable state of a `WidgetAdapter`.  `virtual_editor` is `none` both
before `init_virtual` has (successfully) run and after `dispose` nulled it.
`next_id` is the allocator for fresh object identities. -/
structure AdapterState where
  isDisposed : Bool
  isConnected : Bool
  virtual_editor : Option VirtualEditor
  adapters : List (String × Nat)
  connection_manager : ConnectionManager
  next_id : Nat
deriving DecidableEq

/-- Result of running a method: successor state, performed actions, and the
error (if any) that escaped. -/
structure Outcome where
  state : AdapterState
  actions : List Action
  error : Option JsError
deriving DecidableEq

/-! ### JS `Map` operations, as association lists (first match wins) -/

def mapGet {α : Type} : List (String × α) → String → Option α
  | [], _ => none
  | (k, v) :: rest, key => if k = key then some v else mapGet rest key

def mapSet {α : Type} : List (String × α) → String → α → List (String × α)
  | [], key, v => [(key, v)]
  | (k, w) :: rest, key, v =>
      if k = key then (key, v) :: rest else (k, w) :: mapSet rest key v

def mapDelete {α : Type} (m : List (String × α)) (key : String) :
    List (String × α) :=
  m.filter (fun p => decide (p.1 ≠ key))

/-! ### The adapter methods -/

/-- The state produced by the `WidgetAdapter` constructor: not disposed, not
connected, no virtual editor yet (`init_virtual` has not run), empty
feature-integration registry.  The constructor's signal connections are not
recorded as actions (they have no modelled observable effect). -/
def initState (cm : ConnectionManager) (fresh : Nat) : AdapterState :=
  { isDisposed := false, isConnected := false, virtual_editor := none,
    adapters := [], connection_manager := cm, next_id := fresh }

/-- Models `disconnect_adapter(virtual_document)`: look the bundle up by `id_path`,
delete the map entry, and dispose the bundle if one was found. -/
def disconnect_adapter (s : AdapterState) (vd : VirtualDocument) :
    AdapterState × List Action :=
  match mapGet s.adapters vd.id_path with
  | some ea =>
      ({ s with adapters := mapDelete s.adapters vd.id_path },
       [Action.disposeEditorAdapter ea])
  | none =>
      ({ s with adapters := mapDelete s.adapters vd.id_path }, [])

/-- The `if (this.virtual_editor?.virtual_document) { this.disconnect_adapter(...) }`
step at the top of `dispose` (optional chaining: skipped when the editor is
`null`). -/
def disconnect_adapter_step (s : AdapterState) : AdapterState × List Action :=
  match s.virtual_editor with
  | some ve => disconnect_adapter s ve.virtual_document
  | none => (s, [])

/-- Models `dispose()`.  Mirrors the source order: early return when already
disposed; `disconnect_adapter` on the root document (guarded by optional
chaining); the signal disconnections; disposal of every remaining bundle and
`adapters.clear()`; then `connection_manager.disconnect_document_signals(
this.virtual_editor.virtual_document)` — written *without* optional chaining,
so a `null` virtual editor throws a `TypeError` here, after the earlier
teardown already ran and before `isDisposed` is ever set; finally
`virtual_editor.dispose()`, the reference nulling and `isDisposed = true`.
(Of the nulled references only `virtual_editor` is modelled; no modelled
method reads the others after disposal thanks to the `isDisposed` guards.) -/
def dispose (s : AdapterState) : Outcome :=
  if s.isDisposed then ⟨s, [], none⟩
  else
    match disconnect_adapter_step s with
    | (s1, a1) =>
      let a2 := [Action.disconnectAdapterSignals]
      let a3 := s1.adapters.map (fun p => Action.disposeEditorAdapter p.2)
      let s2 := { s1 with adapters := ([] : List (String × Nat)) }
      match s2.virtual_editor with
      | none => ⟨s2, a1 ++ a2 ++ a3, some JsError.typeError⟩
      | some ve =>
          ⟨{ s2 with virtual_editor := none, isDisposed := true },
           a1 ++ a2 ++ a3 ++
             [Action.disconnectDocumentSignals ve.virtual_document.obj_id,
              Action.disposeVirtualEditor],
           none⟩

/-- Models `on_connection_closed` of the source: log, then return
unless the closed document *is* (JS `!==` is object identity) the adapter's
own root document; otherwise `dispose()`. -/
def on_connection_closed (s : AdapterState) (closed_doc : VirtualDocument) :
    Outcome :=
  let log := Action.logInfo "LSP: connection closed, disconnecting adapter"
  let owns : Bool :=
    match s.virtual_editor with
    | some ve => ve.virtual_document.obj_id == closed_doc.obj_id
    | none => false
  if owns then
    match dispose s with
    | o => ⟨o.state, log :: o.actions, o.error⟩
  else ⟨s, [log], none⟩

/-- The `DocumentRegistry.SaveState` values relevant to `on_save_state`. -/
inductive SaveState where
  | started
  | failed
  | completed
deriving DecidableEq

/-- Models `on_save_state(context, state)`: ignore premature calls (no virtual
editor); when the state is `'completed'`, send `sendSaved` with the root
document's `document_info` on every connection held by the manager. -/
def on_save_state (s : AdapterState) (state : SaveState) : Outcome :=
  match s.virtual_editor with
  | none => ⟨s, [], none⟩
  | some ve =>
      if state = SaveState.completed then
        ⟨s,
         s.connection_manager.connections.map
           (fun p => Action.sendSaved p.2.conn_id ve.virtual_document.document_info),
         none⟩
      else ⟨s, [], none⟩

/-- Result of `update_documents()`: besides state/actions/error, the value
handed back to the caller — `some ()` is the promise obtained from the update
manager, `none` is the bare `return` (JS `undefined`). -/
structure UpdateRes where
  state : AdapterState
  actions : List Action
  result : Option Unit
  error : Option JsError
deriving DecidableEq

/-- Models `update_documents()`: when disposed, warn and `return` (yielding
`undefined`, which `await` settles immediately since it is not a promise);
otherwise start recomputation through
`virtual_editor.virtual_document.update_manager.update_documents(...)`
(a `TypeError` if the virtual editor is `null`). -/
def update_documents (s : AdapterState) : UpdateRes :=
  if s.isDisposed then
    ⟨s, [Action.logWarn "Cannot update documents: adapter disposed"], none, none⟩
  else
    match s.virtual_editor with
    | none => ⟨s, [], none, some JsError.typeError⟩
    | some _ => ⟨s, [Action.updateDocuments], some (), none⟩

/-- Models `document_changed(virtual_document, document, is_init)`.  Early return
when disposed; skip (with a log) when the connection registered for the
document's `id_path` is absent or not ready, or when no feature-integration
bundle exists for it; otherwise `sendFullTextChange`, and — unless this is
the initial change — schedule `adapter.updateAfterChange()` under the update
lock of the root document's update manager (reading
`this.virtual_editor.virtual_document`, a `TypeError` when the editor is
`null`). -/
def document_changed (s : AdapterState) (virtual_document _document : VirtualDocument)
    (is_init : Bool) : Outcome :=
  if s.isDisposed then
    ⟨s, [Action.logWarn "Cannot swap document: adapter disposed"], none⟩
  else
    match mapGet s.connection_manager.connections virtual_document.id_path with
    | none =>
        ⟨s, [Action.logInfo "LSP: Skipping document update signal: connection not ready"],
         none⟩
    | some conn =>
        if conn.isReady then
          match mapGet s.adapters virtual_document.id_path with
          | none =>
              ⟨s, [Action.logInfo "LSP: Skipping document update signal: adapter not ready"],
               none⟩
          | some ea =>
              let send := Action.sendFullTextChange conn.conn_id
                virtual_document.value virtual_document.document_info
              if is_init then ⟨s, [send], none⟩
              else
                match s.virtual_editor with
                | none => ⟨s, [send], some JsError.typeError⟩
                | some _ => ⟨s, [send, Action.refreshUnderLock ea], none⟩
        else
          ⟨s, [Action.logInfo "LSP: Skipping document update signal: connection not ready"],
           none⟩

/-- Modelled from the spec: `DocumentConnectionManager.connect` (the file
`connection_manager.ts` is not under `src/`).  Per the spec it "establishes,
reuses, and tears down sessions" keyed by the document's `id_path`, and
"acquisition is asynchronous and may fail".  The outcome of the asynchronous
acquisition is an input: `none` models a rejected promise (server missing,
transport error), `some conn` a successful acquisition, which registers the
connection in the manager's registry under the document's `id_path`. -/
def manager_connect (s : AdapterState) (vd : VirtualDocument)
    (acquired : Option LSPConnection) : AdapterState × Option LSPConnection :=
  match acquired with
  | none => (s, none)
  | some conn =>
      ({ s with connection_manager :=
           ⟨mapSet s.connection_manager.connections vd.id_path conn⟩ },
       some conn)

/-- Models `create_adapter`: construct the feature integrations (external
collaborators, elided), allocate a fresh `EditorAdapter` bundle (JS `new`:
a fresh object identity), log readiness, and queue the `didOpen`
(`connection.sendOpenWhenReady(virtual_document.document_info)`). -/
def create_adapter (s : AdapterState) (vd : VirtualDocument)
    (conn : LSPConnection) : AdapterState × Nat × List Action :=
  ({ s with next_id := s.next_id + 1 }, s.next_id,
   [Action.logInfo "LSP: Adapter is ready.",
    Action.sendOpenWhenReady conn.conn_id vd.document_info])

/-- Models `connect_adapter`: `create_adapter`, then install the bundle in the
`adapters` map under the document's `id_path`. -/
def connect_adapter (s : AdapterState) (vd : VirtualDocument)
    (conn : LSPConnection) : AdapterState × Nat × List Action :=
  match create_adapter s vd conn with
  | (s1, ea, acts) =>
      ({ s1 with adapters := mapSet s1.adapters vd.id_path ea }, ea, acts)

/-- Models `on_connected(data)`: `connect_adapter`, emit `adapterConnected`,
set `isConnected`, then `await this.update_documents().then(...)` — a
`TypeError` when `update_documents` returned `undefined` (disposed adapter),
otherwise the continuation runs `document_changed(vd, vd, true)` (the initial
refresh) and logs.  Errors of the chain propagate to the caller (`connect`). -/
def on_connected (s : AdapterState) (vd : VirtualDocument)
    (conn : LSPConnection) : Outcome :=
  match connect_adapter s vd conn with
  | (s1, _ea, a1) =>
    let s2 := { s1 with isConnected := true }
    let a2 := a1 ++ [Action.emitAdapterConnected]
    match update_documents s2 with
    | u =>
      match u.error with
      | some e => ⟨u.state, a2 ++ u.actions, some e⟩
      | none =>
        match u.result with
        | none => ⟨u.state, a2 ++ u.actions, some JsError.typeError⟩
        | some _ =>
          match document_changed u.state vd vd true with
          | d =>
            match d.error with
            | none =>
                ⟨d.state,
                 a2 ++ u.actions ++ d.actions ++
                   [Action.logInfo "LSP: virtual document(s) have been initialized"],
                 none⟩
            | some e => ⟨d.state, a2 ++ u.actions ++ d.actions, some e⟩

/-- Models the private `connect(virtual_document)`: log, await
`connection_manager.connect(options)` (its asynchronous outcome is the
`acquired` input, as in `manager_connect`), then `on_connected`.  A rejected
acquisition rejects the whole chain. -/
def connect (s : AdapterState) (vd : VirtualDocument)
    (acquired : Option LSPConnection) : Outcome :=
  let a0 := [Action.logInfo "LSP: will connect using language"]
  match manager_connect s vd acquired with
  | (s1, none) => ⟨s1, a0, some JsError.rejection⟩
  | (s1, some conn) =>
      match on_connected s1 vd conn with
      | o => ⟨o.state, a0 ++ o.actions, o.error⟩

/-- Models `connect_document(virtual_document, send_open)`: connect the
`changed` and `foreign_document_opened` signals, then
`await this.connect(virtual_document).catch(console.warn)` — any rejection of
the chain is caught and logged, leaving `connection_context` undefined.  When
`send_open` is set and a context with a connection exists, queue the
`didOpen`; otherwise warn that the connection was not opened.  The method
itself always resolves (`error = none`). -/
def connect_document (s : AdapterState) (vd : VirtualDocument)
    (send_open : Bool) (acquired : Option LSPConnection) : Outcome :=
  let a0 := [Action.connectDocumentSignals vd.obj_id]
  match connect s vd acquired with
  | o =>
    match o.error with
    | some _ =>
        let tail := if send_open
          then [Action.logWarn "Connection was not opened"] else []
        ⟨o.state, a0 ++ o.actions ++ [Action.logWarn "connect failed"] ++ tail,
         none⟩
    | none =>
        match acquired with
        | some conn =>
            let tail := if send_open
              then [Action.sendOpenWhenReady conn.conn_id vd.document_info]
              else []
            ⟨o.state, a0 ++ o.actions ++ tail, none⟩
        | none =>
            -- not reachable: `connect` surfaces a missing connection as an error
            ⟨o.state, a0 ++ o.actions, none⟩

/-- Modelled from the spec: `create_virtual_document` is abstract in the
source ("(re)create virtual document using current path and language"), its
implementations live outside `src/`.  Per the spec ("creation of a new
VirtualDocument with a new id_path derived from the new path") it allocates a
fresh document whose `id_path` derives from the current document path (passed
in as `document_path`), with an empty initial value. -/
def create_virtual_document (s : AdapterState) (document_path : String) :
    AdapterState × VirtualDocument :=
  ({ s with next_id := s.next_id + 1 },
   { obj_id := s.next_id, id_path := document_path, value := "" })

/-- Modelled from the spec: `DocumentConnectionManager.unregister_document`
(not under `src/`).  Per the spec the teardown removes the registry entry for
the document's `id_path` ("`close` is sent — and the ConnectionManager entry
removed"; "the existing connection is unregistered"). -/
def unregister_document (cm : ConnectionManager) (vd : VirtualDocument) :
    ConnectionManager :=
  ⟨mapDelete cm.connections vd.id_path⟩

/-- Models `reload_connection()`: ignore premature calls (no virtual editor);
otherwise unregister the existing root document from the ConnectionManager,
recreate the virtual document, install it as the virtual editor's document,
and `connect_document(virtual_document, true).catch(console.warn)` — the
reconnect requests an immediate open and any failure is swallowed. -/
def reload_connection (s : AdapterState) (document_path : String)
    (acquired : Option LSPConnection) : Outcome :=
  match s.virtual_editor with
  | none => ⟨s, [], none⟩
  | some ve =>
    let old := ve.virtual_document
    let s1 := { s with
      connection_manager := unregister_document s.connection_manager old }
    match create_virtual_document s1 document_path with
    | (s2, new_doc) =>
      let s3 := { s2 with virtual_editor := some ⟨new_doc⟩ }
      match connect_document s3 new_doc true acquired with
      | o =>
          ⟨o.state,
           Action.unregisterDocument old.obj_id ::
             Action.setEditorDocument new_doc.obj_id :: o.actions,
           none⟩

/-! ### The `language` getter -/

/-- The explicit mime-type map of the source (`mime_type_language_map`). -/
def mime_type_language_map : List (String × String) :=
  [("text/x-rsrc", "r"), ("text/x-r-source", "r"), ("text/x-ipython", "python")]

/-- JS `String.prototype.split` with a one-character separator, over lists of
characters: always yields at least one (possibly empty) piece. -/
def splitListOn (sep : Char) : List Char → List (List Char)
  | [] => [[]]
  | c :: rest =>
      match splitListOn sep rest with
      | [] => if c = sep then [[], []] else [[c]]
      | piece :: pieces =>
          if c = sep then [] :: piece :: pieces else (c :: piece) :: pieces

/-- JS `s.split(sep)` for a one-character separator, on `String`. -/
def jsSplit (s : String) (sep : Char) : List String :=
  (splitListOn sep s.data).map String.mk

/-- JS `s.startsWith('x-')`. -/
def startsWithXDash (s : String) : Bool :=
  match s.data with
  | 'x' :: '-' :: _ => true
  | _ => false

/-- Models the `language` getter, as a function of the adapter's `mime_type`
(an abstract getter in the source).  The explicit map is consulted with the
full mime type; otherwise the part before `';'` is split on `'/'` and
destructured into `[type, subtype]`.  For a top-level type of `'application'`
or `'text'` the subtype is returned with a leading `'x-'` stripped
(`substr(2)`); but when the split produced no second component, `subtype` is
`undefined` and `subtype.startsWith('x-')` throws a `TypeError`.  Any other
top-level type returns the original mime type. -/
def language (mime_type : String) : Except JsError String :=
  match mapGet mime_type_language_map mime_type with
  | some lang => Except.ok lang
  | none =>
      let without_parameters := (jsSplit mime_type ';').headD mime_type
      let parts := jsSplit without_parameters '/'
      let ty := parts.headD ""
      if ty = "application" ∨ ty = "text" then
        match parts[1]? with
        | none => Except.error JsError.typeError
        | some subtype =>
            if startsWithXDash subtype then Except.ok (String.mk (subtype.data.drop 2))
            else Except.ok subtype
      else Except.ok mime_type

/-- The mapping described by the claim, in the claim's own words, for
comparison with `language`: the explicit map first; otherwise, after
discarding `';'`-separated parameters, if the top-level type is
`'application'` or `'text'`, the subtype with a leading `'x-'` removed (the
subtype unchanged if it has no such prefix) — `none` where the claim's text
assigns no value because there is no subtype; any other top-level type maps
to the original mime type unchanged. -/
def claimed_language (mime_type : String) : Option String :=
  match mapGet mime_type_language_map mime_type with
  | some lang => some lang
  | none =>
      let without_parameters := (jsSplit mime_type ';').headD mime_type
      let parts := jsSplit without_parameters '/'
      let ty := parts.headD ""
      if ty = "application" ∨ ty = "text" then
        (parts[1]?).map (fun subtype =>
          if startsWithXDash subtype then String.mk (subtype.data.drop 2)
          else subtype)
      else some mime_type

/-! ### Concrete adapter states and action extractors used by the proofs -/

/-- A disposed adapter state used as concrete input for witnesses. -/
def disposedState : AdapterState :=
  { isDisposed := true, isConnected := false, virtual_editor := none,
    adapters := [], connection_manager := ⟨[]⟩, next_id := 0 }

/-- An initialized adapter state with one ready and one unready connection,
used as concrete input for witnesses. -/
def readyState : AdapterState :=
  { isDisposed := false, isConnected := true,
    virtual_editor := some ⟨⟨0, "file.py", "x = 1"⟩⟩,
    adapters := [("file.py", 1)],
    connection_manager := ⟨[("file.py", ⟨2, true⟩), ("file.py.r", ⟨3, false⟩)]⟩,
    next_id := 4 }

/-- An adapter state whose only registered connection is not ready, used as
concrete input for the C2 witness. -/
def notReadyState : AdapterState :=
  { isDisposed := false, isConnected := false,
    virtual_editor := some ⟨⟨5, "file.py.r", "y"⟩⟩,
    adapters := [("file.py.r", 9)],
    connection_manager := ⟨[("file.py.r", ⟨3, false⟩)]⟩,
    next_id := 10 }

/-- Extracts, from an action, the feature-integration bundle it disposes. -/
def releasedBundle : Action → Option Nat
  | Action.disposeEditorAdapter e => some e
  | _ => none

/-- Extracts, from an action, the document whose connection signals it
releases (`disconnect_document_signals`). -/
def releasedConnDoc : Action → Option Nat
  | Action.disconnectDocumentSignals n => some n
  | _ => none

/-- The post-constructor state of an adapter whose `init_virtual` has not run
(`virtual_editor` is still null). -/
def uninitializedState : AdapterState := initState ⟨[]⟩ 0

/-- An (artificial) state in which the same feature-integration bundle object
is registered under two id_path keys. -/
def sharedBundleState : AdapterState :=
  { isDisposed := false, isConnected := true,
    virtual_editor := some ⟨⟨7, "root", ""⟩⟩,
    adapters := [("a", 5), ("b", 5)],
    connection_manager := ⟨[]⟩, next_id := 9 }

/-- The registry invariant maintained by `connect_adapter` /
`disconnect_adapter`: no id_path occurs twice, no bundle object occurs twice,
and every registered bundle was allocated below the allocation counter. -/
def adaptersInv (s : AdapterState) : Prop :=
  (s.adapters.map Prod.fst).Nodup ∧ (s.adapters.map Prod.snd).Nodup ∧
  ∀ e ∈ s.adapters.map Prod.snd, e < s.next_id

instance (s : AdapterState) : Decidable (adaptersInv s) := by
  unfold adaptersInv
  infer_instance

instance : DecidableEq (Except JsError String) := fun a b =>
  match a, b with
  | Except.ok x, Except.ok y => decidable_of_iff (x = y) (by simp)
  | Except.error x, Except.error y => decidable_of_iff (x = y) (by simp)
  | Except.ok _, Except.error _ => isFalse (by simp)
  | Except.error _, Except.ok _ => isFalse (by simp)

/-! ### Lemmas about the map operations -/

theorem mapGet_cons_eq {α : Type} (k : String) (v : α)
    (rest : List (String × α)) : mapGet ((k, v) :: rest) k = some v := by
  simp [mapGet]

theorem mapGet_cons_ne {α : Type} {k2 k : String} (h : k2 ≠ k) (v : α)
    (rest : List (String × α)) :
    mapGet ((k2, v) :: rest) k = mapGet rest k := by
  simp [mapGet, h]

theorem mapSet_cons_eq {α : Type} (k : String) (w v : α)
    (rest : List (String × α)) :
    mapSet ((k, w) :: rest) k v = (k, v) :: rest := by
  simp [mapSet]

theorem mapSet_cons_ne {α : Type} {k2 k : String} (h : k2 ≠ k) (w v : α)
    (rest : List (String × α)) :
    mapSet ((k2, w) :: rest) k v = (k2, w) :: mapSet rest k v := by
  simp [mapSet, h]

theorem mapDelete_cons_eq {α : Type} (k : String) (v : α)
    (rest : List (String × α)) :
    mapDelete ((k, v) :: rest) k = mapDelete rest k := by
  simp [mapDelete]

theorem mapDelete_cons_ne {α : Type} {k2 k : String} (h : k2 ≠ k) (v : α)
    (rest : List (String × α)) :
    mapDelete ((k2, v) :: rest) k = (k2, v) :: mapDelete rest k := by
  simp [mapDelete, h]

theorem mapGet_mapSet_self {α : Type} (m : List (String × α)) (k : String)
    (v : α) : mapGet (mapSet m k v) k = some v := by
  induction m with
  | nil => simp [mapSet, mapGet]
  | cons p rest ih =>
      obtain ⟨k2, w⟩ := p
      by_cases h : k2 = k
      · subst h
        rw [mapSet_cons_eq, mapGet_cons_eq]
      · rw [mapSet_cons_ne h, mapGet_cons_ne h, ih]

theorem mapGet_mapDelete_self {α : Type} (m : List (String × α))
    (k : String) : mapGet (mapDelete m k) k = none := by
  induction m with
  | nil => simp [mapDelete, mapGet]
  | cons p rest ih =>
      obtain ⟨k2, w⟩ := p
      by_cases h : k2 = k
      · subst h
        rw [mapDelete_cons_eq, ih]
      · rw [mapDelete_cons_ne h, mapGet_cons_ne h, ih]

theorem mem_of_mapGet_eq_some {α : Type} {m : List (String × α)} {k : String}
    {v : α} (h : mapGet m k = some v) : (k, v) ∈ m := by
  induction m with
  | nil => simp [mapGet] at h
  | cons p rest ih =>
      obtain ⟨k2, w⟩ := p
      by_cases hk : k2 = k
      · subst hk
        rw [mapGet_cons_eq] at h
        cases h
        exact List.mem_cons_self _ _
      · rw [mapGet_cons_ne hk] at h
        exact List.mem_cons_of_mem _ (ih h)

theorem mapDelete_sublist {α : Type} (m : List (String × α)) (k : String) :
    (mapDelete m k).Sublist m :=
  List.filter_sublist m

theorem mem_of_mem_mapDelete {α : Type} {m : List (String × α)} {k : String}
    {p : String × α} (h : p ∈ mapDelete m k) : p ∈ m :=
  (mapDelete_sublist m k).mem h

theorem fst_ne_of_mem_mapDelete {α : Type} {m : List (String × α)}
    {k : String} {p : String × α} (h : p ∈ mapDelete m k) : p.1 ≠ k := by
  simp only [mapDelete, List.mem_filter, decide_eq_true_eq] at h
  exact h.2

theorem mem_snd_of_mem_mapDelete_snd {α : Type} {m : List (String × α)}
    {k : String} {e : α} (h : e ∈ (mapDelete m k).map Prod.snd) :
    e ∈ m.map Prod.snd := by
  rcases List.mem_map.mp h with ⟨p, hp, hsnd⟩
  exact hsnd ▸ List.mem_map_of_mem Prod.snd (mem_of_mem_mapDelete hp)

theorem snd_inj_of_values_nodup {α : Type} {m : List (String × α)}
    (hnodup : (m.map Prod.snd).Nodup) {k1 k2 : String} {e : α}
    (h1 : (k1, e) ∈ m) (h2 : (k2, e) ∈ m) : k1 = k2 := by
  have heq := List.inj_on_of_nodup_map hnodup h1 h2 rfl
  exact congrArg Prod.fst heq

theorem not_mem_mapDelete_snd {α : Type} {m : List (String × α)} {k : String}
    {e : α} (hnodup : (m.map Prod.snd).Nodup) (hget : mapGet m k = some e) :
    e ∉ (mapDelete m k).map Prod.snd := by
  intro hmem
  rcases List.mem_map.mp hmem with ⟨p, hp, hsnd⟩
  have hpm : (p.1, e) ∈ m := by
    have := mem_of_mem_mapDelete hp
    rwa [← hsnd, Prod.mk.eta]
  have hkm : (k, e) ∈ m := mem_of_mapGet_eq_some hget
  exact fst_ne_of_mem_mapDelete hp (snd_inj_of_values_nodup hnodup hpm hkm)

theorem mem_mapSet {α : Type} {m : List (String × α)} {k : String} {v : α}
    {e : String × α} (h : e ∈ mapSet m k v) : e = (k, v) ∨ e ∈ m := by
  induction m with
  | nil => simpa [mapSet] using h
  | cons p rest ih =>
      obtain ⟨k2, w⟩ := p
      by_cases hk : k2 = k
      · subst hk
        rw [mapSet_cons_eq] at h
        rcases List.mem_cons.mp h with h | h
        · exact Or.inl h
        · exact Or.inr (List.mem_cons_of_mem _ h)
      · rw [mapSet_cons_ne hk] at h
        rcases List.mem_cons.mp h with h | h
        · exact Or.inr (h ▸ List.mem_cons_self _ _)
        · rcases ih h with h1 | h1
          · exact Or.inl h1
          · exact Or.inr (List.mem_cons_of_mem _ h1)

theorem mem_snd_mapSet {α : Type} {m : List (String × α)} {k : String}
    {v e : α} (h : e ∈ (mapSet m k v).map Prod.snd) :
    e = v ∨ e ∈ m.map Prod.snd := by
  rcases List.mem_map.mp h with ⟨p, hp, hsnd⟩
  rcases mem_mapSet hp with h1 | h1
  · exact Or.inl (by rw [← hsnd, h1])
  · exact Or.inr (hsnd ▸ List.mem_map_of_mem Prod.snd h1)

theorem keys_nodup_mapSet {α : Type} {m : List (String × α)} (k : String)
    (v : α) (h : (m.map Prod.fst).Nodup) :
    ((mapSet m k v).map Prod.fst).Nodup := by
  induction m with
  | nil => simp [mapSet]
  | cons p rest ih =>
      obtain ⟨k2, w⟩ := p
      simp only [List.map_cons, List.nodup_cons] at h
      by_cases hk : k2 = k
      · subst hk
        rw [mapSet_cons_eq]
        simpa using h
      · rw [mapSet_cons_ne hk]
        simp only [List.map_cons, List.nodup_cons]
        refine ⟨fun hmem => ?_, ih h.2⟩
        rcases List.mem_map.mp hmem with ⟨p, hp, hfst⟩
        rcases mem_mapSet hp with h1 | h1
        · exact hk (by rw [← hfst, h1])
        · exact h.1 (hfst ▸ List.mem_map_of_mem Prod.fst h1)

theorem values_nodup_mapSet {α : Type} {m : List (String × α)} (k : String)
    {v : α} (hnodup : (m.map Prod.snd).Nodup) (hv : v ∉ m.map Prod.snd) :
    ((mapSet m k v).map Prod.snd).Nodup := by
  induction m with
  | nil => simp [mapSet]
  | cons p rest ih =>
      obtain ⟨k2, w⟩ := p
      simp only [List.map_cons, List.nodup_cons] at hnodup
      simp only [List.map_cons, List.mem_cons] at hv
      push_neg at hv
      by_cases hk : k2 = k
      · subst hk
        rw [mapSet_cons_eq]
        simp only [List.map_cons, List.nodup_cons]
        exact ⟨hv.2, hnodup.2⟩
      · rw [mapSet_cons_ne hk]
        simp only [List.map_cons, List.nodup_cons]
        refine ⟨fun hmem => ?_, ih hnodup.2 hv.2⟩
        rcases mem_snd_mapSet hmem with h1 | h1
        · exact hv.1 h1.symm
        · exact hnodup.1 h1

theorem count_keys_mapSet {α : Type} {m : List (String × α)} (k : String)
    (v : α) (h : (m.map Prod.fst).Nodup) :
    ((mapSet m k v).map Prod.fst).count k = 1 := by
  have hnodup := keys_nodup_mapSet k v h
  have hmem : k ∈ (mapSet m k v).map Prod.fst :=
    List.mem_map_of_mem Prod.fst (mem_of_mapGet_eq_some (mapGet_mapSet_self m k v))
  rw [List.count_eq_one_of_mem hnodup hmem]

/-! ### Claim C9: the `language` getter -/

/-- C9, counterexample.  The claim states that *every* mime type string is
mapped to some language identifier, in particular that a top-level type of
`'text'` yields the (`'x-'`-stripped) subtype.  But for the mime type
`"text"` the split on `'/'` produces no second component, so the getter
dereferences `undefined` and throws a `TypeError` instead of returning
anything. -/
theorem C9_counterexample :
    language "text" = Except.error JsError.typeError := by decide

/-- C9, amended: for every mime type string on which the claim's description
assigns a value — the explicit map hit, a present subtype under an
`'application'`/`'text'` top-level type, or any other top-level type — the
getter returns exactly that value; when the top-level type is `'application'`
or `'text'` but the parameter-stripped mime type contains no `'/'`, the
getter throws a `TypeError` instead of returning. -/
theorem C9_language_amended (m : String) :
    language m =
      (match claimed_language m with
       | some v => Except.ok v
       | none => Except.error JsError.typeError) := by
  unfold language claimed_language
  cases hmap : mapGet mime_type_language_map m with
  | some lang => rfl
  | none =>
      dsimp only
      by_cases hty :
          ((jsSplit ((jsSplit m ';').headD m) '/').headD "" = "application" ∨
           (jsSplit ((jsSplit m ';').headD m) '/').headD "" = "text")
      · rw [if_pos hty, if_pos hty]
        cases hsub : (jsSplit ((jsSplit m ';').headD m) '/')[1]? with
        | none => simp [hsub]
        | some subtype =>
            simp only [hsub]
            by_cases hx : startsWithXDash subtype = true <;> simp [hx]
      · rw [if_neg hty, if_neg hty]

/-! ### Claim C5: `update_documents` after disposal -/

/-- C5: calling `update_documents` on a disposed adapter is a no-op: the state
is unchanged, the only action is the warning log — in particular no
recomputation (`updateDocuments`) is started — no exception is thrown, and
the returned value is `none`, i.e. the bare `return` / JS `undefined`, which
`await` settles immediately since it is not a promise. -/
theorem C5_update_documents_disposed_noop (s : AdapterState)
    (hd : s.isDisposed = true) :
    update_documents s =
      ⟨s, [Action.logWarn "Cannot update documents: adapter disposed"],
       none, none⟩ ∧
    Action.updateDocuments ∉ (update_documents s).actions := by
  unfold update_documents
  rw [hd]
  simp



/-- C5, witness at the concrete disposed state. -/
theorem C5_witness :
    disposedState.isDisposed = true ∧
    (update_documents disposedState =
        ⟨disposedState,
         [Action.logWarn "Cannot update documents: adapter disposed"],
         none, none⟩ ∧
      Action.updateDocuments ∉ (update_documents disposedState).actions) :=
  ⟨rfl, C5_update_documents_disposed_noop disposedState rfl⟩

/-! ### Claim C7: `on_save_state` -/

/-- C7: on an initialized adapter, a save-state event sends `sendSaved` if and
only if the state is `completed`; when it is, the notification goes out on
every connection held by the ConnectionManager (in registry order), each
carrying the root virtual document's `document_info`; any other save state
sends nothing.  The adapter state is unchanged and no exception escapes. -/
theorem C7_on_save_state (s : AdapterState) (ve : VirtualEditor)
    (st : SaveState) (hv : s.virtual_editor = some ve) :
    (on_save_state s st).actions =
      (if st = SaveState.completed
       then s.connection_manager.connections.map
         (fun p => Action.sendSaved p.2.conn_id ve.virtual_document.document_info)
       else []) ∧
    (on_save_state s st).state = s ∧
    (on_save_state s st).error = none := by
  unfold on_save_state
  rw [hv]
  by_cases h : st = SaveState.completed <;> simp [h]



/-- C7, witness at the concrete state: a `completed` save notifies both
registered connections with the root document-info. -/
theorem C7_witness :
    readyState.virtual_editor = some ⟨⟨0, "file.py", "x = 1"⟩⟩ ∧
    ((on_save_state readyState SaveState.completed).actions =
      (if SaveState.completed = SaveState.completed
       then readyState.connection_manager.connections.map
         (fun p => Action.sendSaved p.2.conn_id
            (⟨⟨0, "file.py", "x = 1"⟩⟩ : VirtualEditor).virtual_document.document_info)
       else []) ∧
     (on_save_state readyState SaveState.completed).state = readyState ∧
     (on_save_state readyState SaveState.completed).error = none) :=
  ⟨rfl, C7_on_save_state readyState ⟨⟨0, "file.py", "x = 1"⟩⟩ SaveState.completed rfl⟩

/-! ### Claim C4: `connect_document` swallows acquisition failure -/

/-- C4: when connection acquisition rejects (`acquired = none`), the
`catch(console.warn)` inside `connect_document` logs the failure; the method
resolves without error, the adapter state is untouched (in particular the
document stays unconnected — the connection registry is unchanged), and no
`didOpen` (`sendOpenWhenReady`) is emitted, whatever `send_open` was. -/
theorem C4_connect_failure_caught (s : AdapterState) (vd : VirtualDocument)
    (send_open : Bool) :
    (connect_document s vd send_open none).error = none ∧
    (∀ c i, Action.sendOpenWhenReady c i ∉
        (connect_document s vd send_open none).actions) ∧
    (connect_document s vd send_open none).state = s ∧
    Action.logWarn "connect failed" ∈
        (connect_document s vd send_open none).actions := by
  unfold connect_document connect manager_connect
  by_cases h : send_open = true <;> simp [h]

/-! ### Claim C2: the no-op guard of `document_changed` -/

/-- C2: whenever the connection registered for the changed document's
`id_path` is absent or not ready, or no feature-integration bundle exists for
that `id_path`, `document_changed` sends no full-text change
(`sendFullTextChange`) and starts no feature refresh (`refreshUnderLock`);
the state is unchanged (the event is dropped, nothing is queued) and no
exception escapes. -/
theorem C2_document_changed_guard (s : AdapterState)
    (vd doc : VirtualDocument) (is_init : Bool)
    (h : ((mapGet s.connection_manager.connections vd.id_path).map
            LSPConnection.isReady).getD false = false
         ∨ mapGet s.adapters vd.id_path = none) :
    (∀ c t i, Action.sendFullTextChange c t i ∉
        (document_changed s vd doc is_init).actions) ∧
    (∀ e, Action.refreshUnderLock e ∉
        (document_changed s vd doc is_init).actions) ∧
    (document_changed s vd doc is_init).state = s ∧
    (document_changed s vd doc is_init).error = none := by
  unfold document_changed
  cases hd : s.isDisposed with
  | true => simp
  | false =>
      dsimp only
      cases hc : mapGet s.connection_manager.connections vd.id_path with
      | none => simp
      | some conn =>
          rw [hc] at h
          cases hr : conn.isReady with
          | false => simp [hr]
          | true =>
              rcases h with h | h
              · simp only [Option.map_some', Option.getD_some] at h
                rw [hr] at h
                simp at h
              · rw [h]
                simp [hr]



/-- C2, witness: a state where a connection is registered for the id_path but
is not ready (and a bundle exists) drops the change. -/
theorem C2_witness :
    (((mapGet notReadyState.connection_manager.connections
        (⟨5, "file.py.r", "y"⟩ : VirtualDocument).id_path).map
          LSPConnection.isReady).getD false = false
      ∨ mapGet notReadyState.adapters
          (⟨5, "file.py.r", "y"⟩ : VirtualDocument).id_path = none) ∧
    ((∀ c t i, Action.sendFullTextChange c t i ∉
        (document_changed notReadyState ⟨5, "file.py.r", "y"⟩
          ⟨5, "file.py.r", "y"⟩ false).actions) ∧
     (∀ e, Action.refreshUnderLock e ∉
        (document_changed notReadyState ⟨5, "file.py.r", "y"⟩
          ⟨5, "file.py.r", "y"⟩ false).actions) ∧
     (document_changed notReadyState ⟨5, "file.py.r", "y"⟩
        ⟨5, "file.py.r", "y"⟩ false).state = notReadyState ∧
     (document_changed notReadyState ⟨5, "file.py.r", "y"⟩
        ⟨5, "file.py.r", "y"⟩ false).error = none) :=
  ⟨Or.inl (by decide),
   C2_document_changed_guard notReadyState ⟨5, "file.py.r", "y"⟩
     ⟨5, "file.py.r", "y"⟩ false (Or.inl (by decide))⟩

/-! ### Lemmas about `dispose` -/

theorem dispose_of_disposed (s : AdapterState) (hd : s.isDisposed = true) :
    dispose s = ⟨s, [], none⟩ := by
  unfold dispose
  rw [hd]
  rfl

/-- Full characterization of a first `dispose` on an initialized adapter. -/
theorem dispose_characterization (s : AdapterState) (ve : VirtualEditor)
    (hd : s.isDisposed = false) (hv : s.virtual_editor = some ve) :
    dispose s =
      ⟨{ s with adapters := [], virtual_editor := none, isDisposed := true },
       (match mapGet s.adapters ve.virtual_document.id_path with
        | some ea => [Action.disposeEditorAdapter ea]
        | none => []) ++
       [Action.disconnectAdapterSignals] ++
       (mapDelete s.adapters ve.virtual_document.id_path).map
         (fun p => Action.disposeEditorAdapter p.2) ++
       [Action.disconnectDocumentSignals ve.virtual_document.obj_id,
        Action.disposeVirtualEditor],
       none⟩ := by
  unfold dispose disconnect_adapter_step disconnect_adapter
  rw [hd, hv]
  cases hget : mapGet s.adapters ve.virtual_document.id_path with
  | some ea => simp [hget, hv]
  | none => simp [hget, hv]

/-! ### Claim C10: `on_connection_closed` -/

theorem dispose_initialized (s : AdapterState) (ve : VirtualEditor)
    (hd : s.isDisposed = false) (hv : s.virtual_editor = some ve) :
    (dispose s).state.isDisposed = true ∧ (dispose s).error = none := by
  rw [dispose_characterization s ve hd hv]
  exact ⟨rfl, rfl⟩

/-- C10: on a connection-closed broadcast, the adapter disposes itself exactly
when the closed virtual document is — by object identity — the adapter's own
root virtual document (the handler is then `dispose` plus the log line); for
a closed event concerning any other document the handler only logs and leaves
the entire adapter state unchanged, with no error.  When the identity matches
and the adapter was not already disposed, the handler completes the disposal
(`isDisposed` becomes true) without an exception. -/
theorem C10_connection_closed_identity (s : AdapterState)
    (d : VirtualDocument) (ve : VirtualEditor)
    (hv : s.virtual_editor = some ve) :
    (on_connection_closed s d =
      if ve.virtual_document.obj_id == d.obj_id
      then ⟨(dispose s).state,
            Action.logInfo "LSP: connection closed, disconnecting adapter" ::
              (dispose s).actions,
            (dispose s).error⟩
      else ⟨s, [Action.logInfo "LSP: connection closed, disconnecting adapter"],
            none⟩) ∧
    (ve.virtual_document.obj_id = d.obj_id → s.isDisposed = false →
      (on_connection_closed s d).state.isDisposed = true ∧
      (on_connection_closed s d).error = none) := by
  constructor
  · unfold on_connection_closed
    rw [hv]
  · intro heq hd
    unfold on_connection_closed
    rw [hv]
    simp only [heq, beq_self_eq_true, if_true]
    exact dispose_initialized s ve hd hv

/-- C10, witness: at `readyState` and a foreign document (different object
identity), the handler leaves the state unchanged; the theorem is applied at
that concrete input. -/
theorem C10_witness :
    readyState.virtual_editor = some ⟨⟨0, "file.py", "x = 1"⟩⟩ ∧
    ((on_connection_closed readyState ⟨42, "other", ""⟩ =
      if (⟨⟨0, "file.py", "x = 1"⟩⟩ : VirtualEditor).virtual_document.obj_id ==
          (⟨42, "other", ""⟩ : VirtualDocument).obj_id
      then ⟨(dispose readyState).state,
            Action.logInfo "LSP: connection closed, disconnecting adapter" ::
              (dispose readyState).actions,
            (dispose readyState).error⟩
      else ⟨readyState,
            [Action.logInfo "LSP: connection closed, disconnecting adapter"],
            none⟩) ∧
     ((⟨⟨0, "file.py", "x = 1"⟩⟩ : VirtualEditor).virtual_document.obj_id =
          (⟨42, "other", ""⟩ : VirtualDocument).obj_id →
        readyState.isDisposed = false →
        (on_connection_closed readyState ⟨42, "other", ""⟩).state.isDisposed = true ∧
        (on_connection_closed readyState ⟨42, "other", ""⟩).error = none)) :=
  ⟨rfl, C10_connection_closed_identity readyState ⟨42, "other", ""⟩
    ⟨⟨0, "file.py", "x = 1"⟩⟩ rfl⟩

/-! ### Claim C1: idempotence of `dispose` -/





theorem filterMap_releasedBundle_disposeList (l : List (String × Nat)) :
    (l.map (fun p => Action.disposeEditorAdapter p.2)).filterMap releasedBundle
      = l.map Prod.snd := by
  induction l with
  | nil => rfl
  | cons p rest ih => simp [List.filterMap_cons, releasedBundle, ih]

theorem filterMap_releasedConnDoc_disposeList (l : List (String × Nat)) :
    (l.map (fun p => Action.disposeEditorAdapter p.2)).filterMap releasedConnDoc
      = [] := by
  induction l with
  | nil => rfl
  | cons p rest ih => simp [List.filterMap_cons, releasedConnDoc, ih]

/-- C1, amended: for every adapter state that is already disposed or whose
virtual editor is initialized (and whose feature-integration registry holds
pairwise-distinct bundles, as every registry built by `connect_adapter`'s
fresh allocations does), calling `dispose` twice in succession produces no
error, the second call performs no teardown action at all (empty action list,
unchanged state), and across both calls every feature-integration bundle is
disposed at most once and the connection bookkeeping of the root document is
released at most once.  (Without the two restrictions the claim fails; see
the counterexample.) -/
theorem C1_dispose_idempotent_amended (s : AdapterState)
    (h1 : s.isDisposed = true ∨ s.virtual_editor.isSome = true)
    (h2 : (s.adapters.map Prod.snd).Nodup) :
    (dispose s).error = none ∧
    (dispose (dispose s).state).error = none ∧
    (dispose (dispose s).state).actions = [] ∧
    (dispose (dispose s).state).state = (dispose s).state ∧
    (((dispose s).actions ++ (dispose (dispose s).state).actions).filterMap
        releasedBundle).Nodup ∧
    (((dispose s).actions ++ (dispose (dispose s).state).actions).filterMap
        releasedConnDoc).Nodup := by
  cases hd : s.isDisposed with
  | true =>
      rw [dispose_of_disposed s hd]
      rw [dispose_of_disposed s hd]
      simp
  | false =>
      rcases h1 with h1 | h1
      · rw [hd] at h1
        exact absurd h1 (by simp)
      · rcases Option.isSome_iff_exists.mp h1 with ⟨ve, hv⟩
        rw [dispose_characterization s ve hd hv]
        rw [dispose_of_disposed _ rfl]
        refine ⟨rfl, rfl, rfl, rfl, ?_, ?_⟩
        · simp only [List.append_nil, List.filterMap_append,
            filterMap_releasedBundle_disposeList]
          have hdel : ((mapDelete s.adapters ve.virtual_document.id_path).map
              Prod.snd).Nodup :=
            h2.sublist ((mapDelete_sublist s.adapters
              ve.virtual_document.id_path).map Prod.snd)
          cases hget : mapGet s.adapters ve.virtual_document.id_path with
          | none => simpa [releasedBundle] using hdel
          | some ea =>
              simp only [List.filterMap_cons, releasedBundle,
                List.filterMap_nil, List.nil_append, List.append_nil]
              exact List.Nodup.cons (not_mem_mapDelete_snd h2 hget) hdel

        · simp only [List.append_nil, List.filterMap_append,
            filterMap_releasedConnDoc_disposeList]
          cases hget : mapGet s.adapters ve.virtual_document.id_path with
          | none => simp [releasedConnDoc]
          | some ea => simp [releasedConnDoc]





/-- C1, counterexample.  The claim quantifies over *every* adapter state.
(1) On an adapter whose virtual editor was never initialized, `dispose` reads
`this.virtual_editor.virtual_document` without optional chaining and throws a
`TypeError` — before `isDisposed` is ever set — so the second call throws
again: calling dispose twice is not error-free.  (2) On a state whose
registry aliases one bundle under two keys, a single `dispose` releases that
bundle twice (bundle 5 below), so teardown is not at-most-once. -/
theorem C1_counterexample :
    (dispose uninitializedState).error = some JsError.typeError ∧
    (dispose (dispose uninitializedState).state).error = some JsError.typeError ∧
    (dispose sharedBundleState).actions.filterMap releasedBundle = [5, 5] := by
  decide

/-- C1, witness for the amended theorem, at the initialized state
`readyState`. -/
theorem C1_witness :
    (readyState.isDisposed = true ∨ readyState.virtual_editor.isSome = true) ∧
    (readyState.adapters.map Prod.snd).Nodup ∧
    ((dispose readyState).error = none ∧
     (dispose (dispose readyState).state).error = none ∧
     (dispose (dispose readyState).state).actions = [] ∧
     (dispose (dispose readyState).state).state = (dispose readyState).state ∧
     (((dispose readyState).actions ++
         (dispose (dispose readyState).state).actions).filterMap
        releasedBundle).Nodup ∧
     (((dispose readyState).actions ++
         (dispose (dispose readyState).state).actions).filterMap
        releasedConnDoc).Nodup) :=
  ⟨Or.inr rfl, by decide,
   C1_dispose_idempotent_amended readyState (Or.inr rfl) (by decide)⟩

/-! ### State lemmas for the connect chain -/

theorem update_documents_state (s : AdapterState) :
    (update_documents s).state = s := by
  unfold update_documents
  split
  · rfl
  · split <;> rfl

theorem document_changed_state (s : AdapterState) (vd doc : VirtualDocument)
    (b : Bool) : (document_changed s vd doc b).state = s := by
  unfold document_changed
  split
  · rfl
  · split
    · rfl
    · split
      · split
        · rfl
        · split
          · rfl
          · split <;> rfl
      · rfl

theorem on_connected_state (s : AdapterState) (vd : VirtualDocument)
    (conn : LSPConnection) :
    (on_connected s vd conn).state =
      { s with
        adapters := mapSet s.adapters vd.id_path s.next_id,
        next_id := s.next_id + 1,
        isConnected := true } := by
  unfold on_connected connect_adapter create_adapter
  dsimp only
  split
  · exact update_documents_state _
  · split
    · exact update_documents_state _
    · split <;>
        · rw [document_changed_state, update_documents_state]

theorem connect_editor (s : AdapterState) (vd : VirtualDocument)
    (acq : Option LSPConnection) :
    (connect s vd acq).state.virtual_editor = s.virtual_editor := by
  unfold connect manager_connect
  cases acq with
  | none => rfl
  | some conn =>
      dsimp only
      rw [on_connected_state]

theorem connect_document_editor (s : AdapterState) (vd : VirtualDocument)
    (so : Bool) (acq : Option LSPConnection) :
    (connect_document s vd so acq).state.virtual_editor = s.virtual_editor := by
  have h := connect_editor s vd acq
  unfold connect_document
  dsimp only
  split
  · exact h
  · split
    · exact h
    · exact h

/-! ### Which actions the connect chain can emit -/

theorem update_documents_actions_cases (s : AdapterState) :
    ∀ a ∈ (update_documents s).actions,
      (∃ m, a = Action.logWarn m) ∨ a = Action.updateDocuments := by
  unfold update_documents
  split
  · intro a ha
    simp only [List.mem_singleton] at ha
    exact Or.inl ⟨_, ha⟩
  · split
    · intro a ha
      simp at ha
    · intro a ha
      simp only [List.mem_singleton] at ha
      exact Or.inr ha

theorem document_changed_actions_cases (s : AdapterState)
    (vd doc : VirtualDocument) (b : Bool) :
    ∀ a ∈ (document_changed s vd doc b).actions,
      (∃ m, a = Action.logWarn m) ∨ (∃ m, a = Action.logInfo m) ∨
      (∃ c, a = Action.sendFullTextChange c vd.value vd.document_info) ∨
      (∃ e, a = Action.refreshUnderLock e) := by
  unfold document_changed
  split
  · intro a ha
    simp only [List.mem_singleton] at ha
    exact Or.inl ⟨_, ha⟩
  · split
    · intro a ha
      simp only [List.mem_singleton] at ha
      exact Or.inr (Or.inl ⟨_, ha⟩)
    · split
      · split
        · intro a ha
          simp only [List.mem_singleton] at ha
          exact Or.inr (Or.inl ⟨_, ha⟩)
        · split
          · intro a ha
            simp only [List.mem_singleton] at ha
            exact Or.inr (Or.inr (Or.inl ⟨_, ha⟩))
          · split
            · intro a ha
              simp only [List.mem_singleton] at ha
              exact Or.inr (Or.inr (Or.inl ⟨_, ha⟩))
            · intro a ha
              simp only [List.mem_cons, List.not_mem_nil, or_false] at ha
              rcases ha with ha | ha
              · exact Or.inr (Or.inr (Or.inl ⟨_, ha⟩))
              · exact Or.inr (Or.inr (Or.inr ⟨_, ha⟩))
      · intro a ha
        simp only [List.mem_singleton] at ha
        exact Or.inr (Or.inl ⟨_, ha⟩)

theorem on_connected_actions_cases (s : AdapterState) (vd : VirtualDocument)
    (conn : LSPConnection) :
    ∀ a ∈ (on_connected s vd conn).actions,
      (∃ m, a = Action.logWarn m) ∨ (∃ m, a = Action.logInfo m) ∨
      a = Action.emitAdapterConnected ∨ a = Action.updateDocuments ∨
      a = Action.sendOpenWhenReady conn.conn_id vd.document_info ∨
      (∃ c, a = Action.sendFullTextChange c vd.value vd.document_info) ∨
      (∃ e, a = Action.refreshUnderLock e) := by
  unfold on_connected connect_adapter create_adapter
  dsimp only
  have base : ∀ a ∈ [Action.logInfo "LSP: Adapter is ready.",
      Action.sendOpenWhenReady conn.conn_id vd.document_info],
      (∃ m, a = Action.logWarn m) ∨ (∃ m, a = Action.logInfo m) ∨
      a = Action.emitAdapterConnected ∨ a = Action.updateDocuments ∨
      a = Action.sendOpenWhenReady conn.conn_id vd.document_info ∨
      (∃ c, a = Action.sendFullTextChange c vd.value vd.document_info) ∨
      (∃ e, a = Action.refreshUnderLock e) := by
    intro a ha
    simp only [List.mem_cons, List.not_mem_nil, or_false] at ha
    rcases ha with ha | ha
    · exact Or.inr (Or.inl ⟨_, ha⟩)
    · exact Or.inr (Or.inr (Or.inr (Or.inr (Or.inl ha))))
  have upd : ∀ st : AdapterState, ∀ a ∈ (update_documents st).actions,
      (∃ m, a = Action.logWarn m) ∨ (∃ m, a = Action.logInfo m) ∨
      a = Action.emitAdapterConnected ∨ a = Action.updateDocuments ∨
      a = Action.sendOpenWhenReady conn.conn_id vd.document_info ∨
      (∃ c, a = Action.sendFullTextChange c vd.value vd.document_info) ∨
      (∃ e, a = Action.refreshUnderLock e) := by
    intro st a ha
    have h := update_documents_actions_cases st a ha
    tauto
  have dchg : ∀ st : AdapterState, ∀ a ∈ (document_changed st vd vd true).actions,
      (∃ m, a = Action.logWarn m) ∨ (∃ m, a = Action.logInfo m) ∨
      a = Action.emitAdapterConnected ∨ a = Action.updateDocuments ∨
      a = Action.sendOpenWhenReady conn.conn_id vd.document_info ∨
      (∃ c, a = Action.sendFullTextChange c vd.value vd.document_info) ∨
      (∃ e, a = Action.refreshUnderLock e) := by
    intro st a ha
    have h := document_changed_actions_cases st vd vd true a ha
    tauto
  split
  · intro a ha
    simp only [List.mem_append, or_assoc] at ha
    rcases ha with ha | ha | ha
    · exact base a ha
    · rw [List.mem_singleton] at ha
      exact Or.inr (Or.inr (Or.inl ha))
    · exact upd _ a ha
  · split
    · intro a ha
      simp only [List.mem_append, or_assoc] at ha
      rcases ha with ha | ha | ha
      · exact base a ha
      · rw [List.mem_singleton] at ha
        exact Or.inr (Or.inr (Or.inl ha))
      · exact upd _ a ha
    · split
      · intro a ha
        simp only [List.mem_append, or_assoc] at ha
        rcases ha with ha | ha | ha | ha | ha
        · exact base a ha
        · rw [List.mem_singleton] at ha
          exact Or.inr (Or.inr (Or.inl ha))
        · exact upd _ a ha
        · exact dchg _ a ha
        · rw [List.mem_singleton] at ha
          exact Or.inr (Or.inl ⟨_, ha⟩)
      · intro a ha
        simp only [List.mem_append, or_assoc] at ha
        rcases ha with ha | ha | ha | ha
        · exact base a ha
        · rw [List.mem_singleton] at ha
          exact Or.inr (Or.inr (Or.inl ha))
        · exact upd _ a ha
        · exact dchg _ a ha

/-! ### Claim C3: full-text sync and the initial change -/

/-- Full characterization of `on_connected` on a live adapter whose manager
registry holds a ready connection for the document: install the bundle, emit
the signal, start the recomputation, and run the *initial* `document_changed`
— which sends the full text but schedules no feature refresh. -/
theorem on_connected_success (s : AdapterState) (vd : VirtualDocument)
    (conn : LSPConnection) (ve : VirtualEditor)
    (hd : s.isDisposed = false) (hv : s.virtual_editor = some ve)
    (hc : mapGet s.connection_manager.connections vd.id_path = some conn)
    (hr : conn.isReady = true) :
    on_connected s vd conn =
      ⟨{ s with
          adapters := mapSet s.adapters vd.id_path s.next_id,
          next_id := s.next_id + 1,
          isConnected := true },
       [Action.logInfo "LSP: Adapter is ready.",
        Action.sendOpenWhenReady conn.conn_id vd.document_info,
        Action.emitAdapterConnected,
        Action.updateDocuments,
        Action.sendFullTextChange conn.conn_id vd.value vd.document_info,
        Action.logInfo "LSP: virtual document(s) have been initialized"],
       none⟩ := by
  unfold on_connected connect_adapter create_adapter update_documents
    document_changed
  simp [hd, hv, hc, hr, mapGet_mapSet_self]

/-- C3: for every `document_changed` invocation that passes the readiness
guards (live adapter, ready connection registered for the document's id_path,
feature-integration bundle present, virtual editor initialized), the full
text is sent to the server, and the feature-integration refresh under the
update lock (`updateAfterChange`) is invoked if and only if the change is not
the initial one.  Moreover the initial synchronization triggered on
connection (`on_connected`, which invokes `document_changed` with
`is_init = true`) sends the full text but never performs a feature
refresh. -/
theorem C3_full_text_and_refresh (s : AdapterState)
    (vd doc : VirtualDocument) (is_init : Bool) (conn : LSPConnection)
    (ea : Nat) (ve : VirtualEditor)
    (hd : s.isDisposed = false) (hv : s.virtual_editor = some ve)
    (hc : mapGet s.connection_manager.connections vd.id_path = some conn)
    (hr : conn.isReady = true)
    (ha : mapGet s.adapters vd.id_path = some ea) :
    Action.sendFullTextChange conn.conn_id vd.value vd.document_info ∈
      (document_changed s vd doc is_init).actions ∧
    ((Action.refreshUnderLock ea ∈ (document_changed s vd doc is_init).actions)
        ↔ is_init = false) ∧
    Action.sendFullTextChange conn.conn_id vd.value vd.document_info ∈
      (on_connected s vd conn).actions ∧
    (∀ e, Action.refreshUnderLock e ∉ (on_connected s vd conn).actions) := by
  have hchar := on_connected_success s vd conn ve hd hv hc hr
  refine ⟨?_, ?_, ?_, ?_⟩
  · unfold document_changed
    cases is_init <;> simp [hd, hv, hc, hr, ha]
  · unfold document_changed
    cases is_init <;> simp [hd, hv, hc, hr, ha]
  · rw [hchar]
    simp
  · intro e
    rw [hchar]
    simp

/-- C3, witness at `readyState` (ready connection, bundle installed,
non-initial change). -/
theorem C3_witness :
    readyState.isDisposed = false ∧
    readyState.virtual_editor = some ⟨⟨0, "file.py", "x = 1"⟩⟩ ∧
    mapGet readyState.connection_manager.connections
      (⟨0, "file.py", "x = 1"⟩ : VirtualDocument).id_path =
        some ⟨2, true⟩ ∧
    (⟨2, true⟩ : LSPConnection).isReady = true ∧
    mapGet readyState.adapters
      (⟨0, "file.py", "x = 1"⟩ : VirtualDocument).id_path = some 1 ∧
    (Action.sendFullTextChange (⟨2, true⟩ : LSPConnection).conn_id
        (⟨0, "file.py", "x = 1"⟩ : VirtualDocument).value
        (⟨0, "file.py", "x = 1"⟩ : VirtualDocument).document_info ∈
      (document_changed readyState ⟨0, "file.py", "x = 1"⟩
        ⟨0, "file.py", "x = 1"⟩ false).actions ∧
     ((Action.refreshUnderLock 1 ∈
        (document_changed readyState ⟨0, "file.py", "x = 1"⟩
          ⟨0, "file.py", "x = 1"⟩ false).actions) ↔ false = false) ∧
     Action.sendFullTextChange (⟨2, true⟩ : LSPConnection).conn_id
        (⟨0, "file.py", "x = 1"⟩ : VirtualDocument).value
        (⟨0, "file.py", "x = 1"⟩ : VirtualDocument).document_info ∈
      (on_connected readyState ⟨0, "file.py", "x = 1"⟩ ⟨2, true⟩).actions ∧
     (∀ e, Action.refreshUnderLock e ∉
        (on_connected readyState ⟨0, "file.py", "x = 1"⟩ ⟨2, true⟩).actions)) :=
  ⟨rfl, rfl, by decide, rfl, by decide,
   C3_full_text_and_refresh readyState ⟨0, "file.py", "x = 1"⟩
     ⟨0, "file.py", "x = 1"⟩ false ⟨2, true⟩ 1 ⟨⟨0, "file.py", "x = 1"⟩⟩
     rfl rfl (by decide) rfl (by decide)⟩

/-! ### Claim C6: `reload_connection` -/

theorem connect_actions_cases (s : AdapterState) (vd : VirtualDocument)
    (acq : Option LSPConnection) :
    ∀ a ∈ (connect s vd acq).actions,
      (∃ m, a = Action.logWarn m) ∨ (∃ m, a = Action.logInfo m) ∨
      a = Action.emitAdapterConnected ∨ a = Action.updateDocuments ∨
      (∃ c, a = Action.sendOpenWhenReady c vd.document_info) ∨
      (∃ c, a = Action.sendFullTextChange c vd.value vd.document_info) ∨
      (∃ e, a = Action.refreshUnderLock e) := by
  unfold connect manager_connect
  cases acq with
  | none =>
      intro a ha
      simp only [List.mem_singleton] at ha
      exact Or.inr (Or.inl ⟨_, ha⟩)
  | some conn =>
      intro a ha
      dsimp only at ha
      simp only [List.mem_append, or_assoc, List.mem_singleton] at ha
      have hopen : a = Action.sendOpenWhenReady conn.conn_id vd.document_info →
          ∃ c, a = Action.sendOpenWhenReady c vd.document_info :=
        fun h => ⟨_, h⟩
      rcases ha with ha | ha
      · exact Or.inr (Or.inl ⟨_, ha⟩)
      · have h := on_connected_actions_cases _ vd conn a ha
        tauto

theorem mem_ite_singleton {c : Prop} [Decidable c] {x a : Action}
    (h : a ∈ (if c then [x] else [])) : a = x := by
  split at h
  · simpa using h
  · simp at h

theorem connect_document_actions_cases (s : AdapterState)
    (vd : VirtualDocument) (so : Bool) (acq : Option LSPConnection) :
    ∀ a ∈ (connect_document s vd so acq).actions,
      (∃ m, a = Action.logWarn m) ∨ (∃ m, a = Action.logInfo m) ∨
      a = Action.emitAdapterConnected ∨ a = Action.updateDocuments ∨
      (∃ c, a = Action.sendOpenWhenReady c vd.document_info) ∨
      (∃ c, a = Action.sendFullTextChange c vd.value vd.document_info) ∨
      (∃ e, a = Action.refreshUnderLock e) ∨
      (∃ n, a = Action.connectDocumentSignals n) := by
  have hc := connect_actions_cases s vd acq
  have lift : ∀ a,
      ((∃ m, a = Action.logWarn m) ∨ (∃ m, a = Action.logInfo m) ∨
       a = Action.emitAdapterConnected ∨ a = Action.updateDocuments ∨
       (∃ c, a = Action.sendOpenWhenReady c vd.document_info) ∨
       (∃ c, a = Action.sendFullTextChange c vd.value vd.document_info) ∨
       (∃ e, a = Action.refreshUnderLock e)) →
      ((∃ m, a = Action.logWarn m) ∨ (∃ m, a = Action.logInfo m) ∨
       a = Action.emitAdapterConnected ∨ a = Action.updateDocuments ∨
       (∃ c, a = Action.sendOpenWhenReady c vd.document_info) ∨
       (∃ c, a = Action.sendFullTextChange c vd.value vd.document_info) ∨
       (∃ e, a = Action.refreshUnderLock e) ∨
       (∃ n, a = Action.connectDocumentSignals n)) := by
    intro a h
    tauto
  unfold connect_document
  dsimp only
  split
  · intro a ha
    simp only [List.mem_append, or_assoc, List.mem_singleton] at ha
    rcases ha with ha | ha | ha | ha
    · exact Or.inr (Or.inr (Or.inr (Or.inr (Or.inr (Or.inr
        (Or.inr ⟨_, ha⟩))))))
    · exact lift a (hc a ha)
    · exact Or.inl ⟨_, ha⟩
    · exact Or.inl ⟨_, mem_ite_singleton ha⟩
  · split
    · intro a ha
      simp only [List.mem_append, or_assoc, List.mem_singleton] at ha
      rcases ha with ha | ha | ha
      · exact Or.inr (Or.inr (Or.inr (Or.inr (Or.inr (Or.inr
          (Or.inr ⟨_, ha⟩))))))
      · exact lift a (hc a ha)
      · exact Or.inr (Or.inr (Or.inr (Or.inr (Or.inl
          ⟨_, mem_ite_singleton ha⟩))))
    · intro a ha
      simp only [List.mem_append, or_assoc, List.mem_singleton] at ha
      rcases ha with ha | ha
      · exact Or.inr (Or.inr (Or.inr (Or.inr (Or.inr (Or.inr
          (Or.inr ⟨_, ha⟩))))))
      · exact lift a (hc a ha)

theorem on_connected_sendOpen_mem (s : AdapterState) (vd : VirtualDocument)
    (conn : LSPConnection) :
    Action.sendOpenWhenReady conn.conn_id vd.document_info ∈
      (on_connected s vd conn).actions := by
  unfold on_connected connect_adapter create_adapter
  dsimp only
  split
  · simp
  · split
    · simp
    · split <;> simp

theorem connect_document_sendOpen_mem (s : AdapterState)
    (vd : VirtualDocument) (so : Bool) (conn : LSPConnection) :
    Action.sendOpenWhenReady conn.conn_id vd.document_info ∈
      (connect_document s vd so (some conn)).actions := by
  have h : Action.sendOpenWhenReady conn.conn_id vd.document_info ∈
      (connect s vd (some conn)).actions := by
    unfold connect manager_connect
    dsimp only
    simp [on_connected_sendOpen_mem]
  unfold connect_document
  dsimp only
  split
  · simp only [List.mem_append, or_assoc]
    exact Or.inr (Or.inl h)
  · split
    · simp only [List.mem_append, or_assoc]
      exact Or.inr (Or.inl h)
    · simp only [List.mem_append, or_assoc]
      exact Or.inr (Or.inl h)

/-- C6: a reload on an initialized adapter first unregisters the existing
root document from the ConnectionManager (the registry entry for its id_path
is gone before anything reconnects), then creates a fresh `VirtualDocument`
— a new object, never the old one — installs it as the virtual editor's
document, and reconnects it with an immediate open request (`send_open =
true`, so a `didOpen` is queued for the acquired connection).  Every protocol
send in the whole reload targets the replacement document, never the old one.
A reload before the virtual editor is initialized does nothing. -/
theorem C6_reload_connection (s : AdapterState) (ve : VirtualEditor)
    (path : String) (acq : Option LSPConnection)
    (hv : s.virtual_editor = some ve)
    (hfresh : ve.virtual_document.obj_id < s.next_id) :
    reload_connection { s with virtual_editor := none } path acq =
      ⟨{ s with virtual_editor := none }, [], none⟩ ∧
    (reload_connection s path acq).actions.take 2 =
      [Action.unregisterDocument ve.virtual_document.obj_id,
       Action.setEditorDocument s.next_id] ∧
    s.next_id ≠ ve.virtual_document.obj_id ∧
    (reload_connection s path acq).state.virtual_editor =
      some ⟨⟨s.next_id, path, ""⟩⟩ ∧
    mapGet (unregister_document s.connection_manager
      ve.virtual_document).connections ve.virtual_document.id_path = none ∧
    (∀ c i, Action.sendOpenWhenReady c i ∈
        (reload_connection s path acq).actions →
      i = (⟨s.next_id, path⟩ : DocumentInfo)) ∧
    (∀ c t i, Action.sendFullTextChange c t i ∈
        (reload_connection s path acq).actions →
      i = (⟨s.next_id, path⟩ : DocumentInfo)) ∧
    (∀ conn, acq = some conn →
      Action.sendOpenWhenReady conn.conn_id (⟨s.next_id, path⟩ : DocumentInfo)
        ∈ (reload_connection s path acq).actions) := by
  have hacts : ∀ a ∈ (reload_connection s path acq).actions,
      a = Action.unregisterDocument ve.virtual_document.obj_id ∨
      a = Action.setEditorDocument s.next_id ∨
      a ∈ (connect_document
        { s with
          connection_manager :=
            unregister_document s.connection_manager ve.virtual_document,
          next_id := s.next_id + 1,
          virtual_editor := some ⟨⟨s.next_id, path, ""⟩⟩ }
        ⟨s.next_id, path, ""⟩ true acq).actions := by
    unfold reload_connection create_virtual_document
    rw [hv]
    intro a ha
    dsimp only at ha
    simp only [List.mem_cons] at ha
    rcases ha with ha | ha | ha
    · exact Or.inl ha
    · exact Or.inr (Or.inl ha)
    · exact Or.inr (Or.inr ha)
  refine ⟨rfl, ?_, (ne_of_lt hfresh).symm, ?_, ?_, ?_, ?_, ?_⟩
  · unfold reload_connection create_virtual_document
    rw [hv]
    rfl
  · unfold reload_connection create_virtual_document
    rw [hv]
    dsimp only
    rw [connect_document_editor]
  · exact mapGet_mapDelete_self _ _
  · intro c i hmem
    rcases hacts _ hmem with ha | ha | ha
    · simp at ha
    · simp at ha
    · rcases connect_document_actions_cases _ _ true acq _ ha with
        h | h | h | h | h | h | h | h
      · rcases h with ⟨m, h⟩; simp at h
      · rcases h with ⟨m, h⟩; simp at h
      · simp at h
      · simp at h
      · rcases h with ⟨c2, h⟩
        rw [Action.sendOpenWhenReady.injEq] at h
        exact h.2
      · rcases h with ⟨c2, h⟩; simp at h
      · rcases h with ⟨e, h⟩; simp at h
      · rcases h with ⟨n, h⟩; simp at h
  · intro c t i hmem
    rcases hacts _ hmem with ha | ha | ha
    · simp at ha
    · simp at ha
    · rcases connect_document_actions_cases _ _ true acq _ ha with
        h | h | h | h | h | h | h | h
      · rcases h with ⟨m, h⟩; simp at h
      · rcases h with ⟨m, h⟩; simp at h
      · simp at h
      · simp at h
      · rcases h with ⟨c2, h⟩; simp at h
      · rcases h with ⟨c2, h⟩
        rw [Action.sendFullTextChange.injEq] at h
        exact h.2.2
      · rcases h with ⟨e, h⟩; simp at h
      · rcases h with ⟨n, h⟩; simp at h
  · intro conn hconn
    subst hconn
    unfold reload_connection create_virtual_document
    rw [hv]
    dsimp only
    simp only [List.mem_cons]
    exact Or.inr (Or.inr (connect_document_sendOpen_mem _ _ true conn))

/-- C6, witness: reload of `readyState` to path `"file2.py"` with a
successful acquisition. -/
theorem C6_witness :
    readyState.virtual_editor = some ⟨⟨0, "file.py", "x = 1"⟩⟩ ∧
    (⟨⟨0, "file.py", "x = 1"⟩⟩ : VirtualEditor).virtual_document.obj_id <
      readyState.next_id ∧
    (reload_connection { readyState with virtual_editor := none } "file2.py"
        (some ⟨7, true⟩) =
      ⟨{ readyState with virtual_editor := none }, [], none⟩ ∧
     (reload_connection readyState "file2.py" (some ⟨7, true⟩)).actions.take 2 =
      [Action.unregisterDocument
         (⟨⟨0, "file.py", "x = 1"⟩⟩ : VirtualEditor).virtual_document.obj_id,
       Action.setEditorDocument readyState.next_id] ∧
     readyState.next_id ≠
       (⟨⟨0, "file.py", "x = 1"⟩⟩ : VirtualEditor).virtual_document.obj_id ∧
     (reload_connection readyState "file2.py"
        (some ⟨7, true⟩)).state.virtual_editor =
      some ⟨⟨readyState.next_id, "file2.py", ""⟩⟩ ∧
     mapGet (unregister_document readyState.connection_manager
       (⟨⟨0, "file.py", "x = 1"⟩⟩ : VirtualEditor).virtual_document).connections
       (⟨⟨0, "file.py", "x = 1"⟩⟩ : VirtualEditor).virtual_document.id_path =
         none ∧
     (∀ c i, Action.sendOpenWhenReady c i ∈
        (reload_connection readyState "file2.py" (some ⟨7, true⟩)).actions →
       i = (⟨readyState.next_id, "file2.py"⟩ : DocumentInfo)) ∧
     (∀ c t i, Action.sendFullTextChange c t i ∈
        (reload_connection readyState "file2.py" (some ⟨7, true⟩)).actions →
       i = (⟨readyState.next_id, "file2.py"⟩ : DocumentInfo)) ∧
     (∀ conn, (some (⟨7, true⟩ : LSPConnection) : Option LSPConnection) =
          some conn →
       Action.sendOpenWhenReady conn.conn_id
         (⟨readyState.next_id, "file2.py"⟩ : DocumentInfo) ∈
         (reload_connection readyState "file2.py" (some ⟨7, true⟩)).actions)) :=
  ⟨rfl, by decide,
   C6_reload_connection readyState ⟨⟨0, "file.py", "x = 1"⟩⟩ "file2.py"
     (some ⟨7, true⟩) rfl (by decide)⟩

/-! ### Claim C8: at most one feature-integration bundle per id_path -/



/-- C8: under the registry invariant, `connect_adapter` installs exactly one
bundle for the document's id_path (the freshly created one; the key occurs
exactly once afterwards), the invariant is preserved — in particular no
bundle is ever shared between two distinct id_path keys — and
`disconnect_adapter` removes the entry for the id_path and disposes the
removed bundle exactly once (its action list is exactly one disposal when a
bundle was present, and empty otherwise). -/
theorem C8_one_bundle_per_id_path (s : AdapterState) (vd : VirtualDocument)
    (conn : LSPConnection) (hinv : adaptersInv s) :
    adaptersInv (connect_adapter s vd conn).1 ∧
    mapGet (connect_adapter s vd conn).1.adapters vd.id_path =
      some (connect_adapter s vd conn).2.1 ∧
    ((connect_adapter s vd conn).1.adapters.map Prod.fst).count vd.id_path
      = 1 ∧
    (∀ k1 k2 e, (k1, e) ∈ (connect_adapter s vd conn).1.adapters →
      (k2, e) ∈ (connect_adapter s vd conn).1.adapters → k1 = k2) ∧
    adaptersInv (disconnect_adapter s vd).1 ∧
    mapGet (disconnect_adapter s vd).1.adapters vd.id_path = none ∧
    (disconnect_adapter s vd).2 =
      (match mapGet s.adapters vd.id_path with
       | some e => [Action.disposeEditorAdapter e]
       | none => []) := by
  obtain ⟨hkeys, hvals, hbound⟩ := hinv
  have hfresh : s.next_id ∉ s.adapters.map Prod.snd := by
    intro hmem
    exact lt_irrefl _ (hbound _ hmem)
  have hset : (connect_adapter s vd conn).1.adapters =
      mapSet s.adapters vd.id_path s.next_id := rfl
  have hnext : (connect_adapter s vd conn).1.next_id = s.next_id + 1 := rfl
  have hvals2 : ((connect_adapter s vd conn).1.adapters.map Prod.snd).Nodup :=
    by rw [hset]; exact values_nodup_mapSet _ hvals hfresh
  have hdel : (disconnect_adapter s vd).1.adapters =
      mapDelete s.adapters vd.id_path := by
    unfold disconnect_adapter
    cases mapGet s.adapters vd.id_path <;> rfl
  refine ⟨⟨?_, hvals2, ?_⟩, ?_, ?_, ?_, ⟨?_, ?_, ?_⟩, ?_, ?_⟩
  · rw [hset]
    exact keys_nodup_mapSet _ _ hkeys
  · rw [hset, hnext]
    intro e he
    rcases mem_snd_mapSet he with he | he
    · omega
    · exact Nat.lt_succ_of_lt (hbound _ he)
  · rw [hset]
    exact mapGet_mapSet_self _ _ _
  · rw [hset]
    exact count_keys_mapSet _ _ hkeys
  · intro k1 k2 e h1 h2
    exact snd_inj_of_values_nodup hvals2 (hset ▸ h1) (hset ▸ h2)
  · rw [hdel]
    exact hkeys.sublist ((mapDelete_sublist s.adapters vd.id_path).map
      Prod.fst)
  · rw [hdel]
    exact hvals.sublist ((mapDelete_sublist s.adapters vd.id_path).map
      Prod.snd)
  · rw [hdel]
    intro e he
    have : (disconnect_adapter s vd).1.next_id = s.next_id := by
      unfold disconnect_adapter
      cases mapGet s.adapters vd.id_path <;> rfl
    rw [this]
    exact hbound _ (mem_snd_of_mem_mapDelete_snd he)
  · rw [hdel]
    exact mapGet_mapDelete_self _ _
  · unfold disconnect_adapter
    cases mapGet s.adapters vd.id_path <;> rfl

/-- C8, witness: at `readyState`, connecting a bundle for a new foreign
document and disconnecting the root's bundle. -/
theorem C8_witness :
    adaptersInv readyState ∧
    (adaptersInv (connect_adapter readyState ⟨9, "file.py.r", ""⟩
        ⟨3, false⟩).1 ∧
     mapGet (connect_adapter readyState ⟨9, "file.py.r", ""⟩
        ⟨3, false⟩).1.adapters
        (⟨9, "file.py.r", ""⟩ : VirtualDocument).id_path =
      some (connect_adapter readyState ⟨9, "file.py.r", ""⟩ ⟨3, false⟩).2.1 ∧
     ((connect_adapter readyState ⟨9, "file.py.r", ""⟩
        ⟨3, false⟩).1.adapters.map Prod.fst).count
        (⟨9, "file.py.r", ""⟩ : VirtualDocument).id_path = 1 ∧
     (∀ k1 k2 e,
       (k1, e) ∈ (connect_adapter readyState ⟨9, "file.py.r", ""⟩
          ⟨3, false⟩).1.adapters →
       (k2, e) ∈ (connect_adapter readyState ⟨9, "file.py.r", ""⟩
          ⟨3, false⟩).1.adapters → k1 = k2) ∧
     adaptersInv (disconnect_adapter readyState ⟨9, "file.py.r", ""⟩).1 ∧
     mapGet (disconnect_adapter readyState
        ⟨9, "file.py.r", ""⟩).1.adapters
        (⟨9, "file.py.r", ""⟩ : VirtualDocument).id_path = none ∧
     (disconnect_adapter readyState ⟨9, "file.py.r", ""⟩).2 =
      (match mapGet readyState.adapters
          (⟨9, "file.py.r", ""⟩ : VirtualDocument).id_path with
       | some e => [Action.disposeEditorAdapter e]
       | none => [])) :=
  ⟨by decide,
   C8_one_bundle_per_id_path readyState ⟨9, "file.py.r", ""⟩ ⟨3, false⟩
     (by decide)⟩

end AdapterModel
